import Mathlib

/-!
Verification of the ScanGenius PDF-OCR application.

This file gives a shallow embedding of the application's session state and
its event handlers (`handleFileSelect`, `startProcessing`, `handleAnalyze`,
`handleDownloadImages`, `handleReset`), translated from `App.tsx`,
`types.ts` and `constants.ts`.  External collaborators (the PDF renderer,
the OCR client, the analysis client and a document loader) are modelled as
function parameters returning `Option`; `none` models the collaborator
throwing an error.  React state updates become explicit state passing on
an `AppState` structure, and the sequential `await` loop of
`startProcessing` becomes the structural recursion `processLoop`.
-/

namespace ScanGenius

/-- Application status, from `AppStatus` in `types.ts`. -/
inductive AppStatus
  | IDLE
  | LOADING_PDF
  | PROCESSING
  | COMPLETED
  | ERROR
  deriving DecidableEq

/-- One extracted page, from `ExtractedPage` in `types.ts`.  `imageUrl`
holds the base64 data URL of the rendered page. -/
structure ExtractedPage where
  pageNumber : Int
  text : String
  imageUrl : String
  deriving DecidableEq

/-- Structured analysis output, from `AnalysisResult` in `types.ts`. -/
structure AnalysisResult where
  summary : String
  keywords : List String
  topics : List String
  keyPoints : List String
  deriving DecidableEq

/-- Processing mode, from `ProcessingMode` in `types.ts`. -/
inductive ProcessingMode
  | ALL
  | SINGLE
  | RANGE
  deriving DecidableEq

/-- Processing configuration, from `ProcessingConfig` in `types.ts`. -/
structure ProcessingConfig where
  mode : ProcessingMode
  singlePage : Int
  rangeStart : Int
  rangeEnd : Int
  deriving DecidableEq

/-- The workspace tab currently shown (`activeTab` state in `App.tsx`). -/
inductive ActiveTab
  | editor
  | images
  | analysis
  deriving DecidableEq

/-- Progress counters (`processingProgress` state in `App.tsx`). -/
structure Progress where
  current : Nat
  total : Nat
  deriving DecidableEq

/-- The session state: one field per `useState` hook of `App.tsx`.  The
opaque `pdfDoc` handle is modelled by the one datum the code reads from
it, its page count. -/
structure AppState where
  status : AppStatus
  darkMode : Bool
  currentFile : Option String
  pdfDoc : Option Int
  totalPages : Int
  extractedPages : List ExtractedPage
  processingProgress : Progress
  activeTab : ActiveTab
  editorText : String
  analysis : Option AnalysisResult
  isAnalyzing : Bool
  showConfig : Bool
  deriving DecidableEq

/-- The initial values of all `useState` hooks in `App.tsx`. -/
def initialState : AppState where
  status := AppStatus.IDLE
  darkMode := false
  currentFile := none
  pdfDoc := none
  totalPages := 0
  extractedPages := []
  processingProgress := ⟨0, 0⟩
  activeTab := ActiveTab.editor
  editorText := ""
  analysis := none
  isAnalyzing := false
  showConfig := false

/-- Models JavaScript `String.prototype.trim`: removes leading and
trailing whitespace characters. -/
def trimJS (s : String) : String :=
  ⟨((s.data.dropWhile Char.isWhitespace).reverse.dropWhile Char.isWhitespace).reverse⟩

/-- Models the JavaScript loop `for (let i = a; i <= b; i++) push(i)`:
the integers `a, a+1, ..., b` in ascending order (empty when `a > b`). -/
def intRange (a b : Int) : List Int :=
  (List.range (b + 1 - a).toNat).map (fun (k : Nat) => a + (k : Int))

/-- The page-number sequence `pagesToProcess` built at the top of
`startProcessing` in `App.tsx` from the configuration (and, in ALL mode,
the `totalPages` state). -/
def pagesToProcess (config : ProcessingConfig) (totalPages : Int) : List Int :=
  match config.mode with
  | ProcessingMode.SINGLE => [config.singlePage]
  | ProcessingMode.RANGE => intRange config.rangeStart config.rangeEnd
  | ProcessingMode.ALL => intRange 1 totalPages

/-- The formatted block appended to the editor for one page:
`pageText` in `App.tsx`. -/
def pageBlock (pageNum : Int) (text : String) : String :=
  "\n\n--- Page " ++ toString pageNum ++ " ---\n\n" ++ text

/-- One iteration of the `for` loop of `startProcessing`: render the page,
OCR it, and on success append the record, append the editor block and
advance the progress counters.  The `try`/`catch` around the body becomes
the `none` branches, which leave the state unchanged. -/
def processOnePage (render : Int → Option String) (ocr : String → Option String)
    (total : Nat) (st : AppState) (i : Nat) (pageNum : Int) : AppState :=
  match render pageNum with
  | none => st
  | some base64Image =>
    match ocr base64Image with
    | none => st
    | some text =>
      { st with
        extractedPages := st.extractedPages ++ [⟨pageNum, text, base64Image⟩],
        editorText := st.editorText ++ pageBlock pageNum text,
        processingProgress := ⟨i + 1, total⟩ }

/-- The `for (let i = 0; i < pagesToProcess.length; i++)` loop of
`startProcessing`, with `i` the current loop index. -/
def processLoop (render : Int → Option String) (ocr : String → Option String)
    (total : Nat) (pages : List Int) (i : Nat) (st : AppState) : AppState :=
  match pages with
  | [] => st
  | p :: rest => processLoop render ocr total rest (i + 1) (processOnePage render ocr total st i p)

/-- The `startProcessing` handler of `App.tsx`: hide the configuration
panel, enter PROCESSING, clear the page list and editor text, build the
page sequence, initialise the progress counters, run the page loop, and
finally enter COMPLETED. -/
def startProcessing (render : Int → Option String) (ocr : String → Option String)
    (config : ProcessingConfig) (st : AppState) : AppState :=
  let st1 := { st with
               showConfig := false, status := AppStatus.PROCESSING,
               extractedPages := [], editorText := "" }
  let pages := pagesToProcess config st.totalPages
  let st2 := { st1 with processingProgress := ⟨0, pages.length⟩ }
  let st3 := processLoop render ocr pages.length pages 0 st2
  { st3 with status := AppStatus.COMPLETED }

/-- The `handleAnalyze` handler of `App.tsx`.  The second component counts
the calls made to the analysis collaborator (`analyzeText`), so that
"no call is made" is expressible; `analyze` returning `none` models the
call throwing (caught, logged, result left unchanged). -/
def handleAnalyze (analyze : String → Option AnalysisResult) (st : AppState) :
    AppState × Nat :=
  if trimJS st.editorText = "" then (st, 0)
  else
    let st1 := { st with isAnalyzing := true, activeTab := ActiveTab.analysis }
    match analyze st1.editorText with
    | some result => ({ st1 with analysis := some result, isAnalyzing := false }, 1)
    | none => ({ st1 with isAnalyzing := false }, 1)

/-- The `handleFileSelect` handler of `App.tsx`; `getDoc` models
`getDocument`, returning the document's page count or failing. -/
def handleFileSelect (getDoc : String → Option Int) (file : String) (st : AppState) : AppState :=
  let st1 := { st with status := AppStatus.LOADING_PDF, currentFile := some file }
  match getDoc file with
  | some numPages =>
    { st1 with
      pdfDoc := some numPages, totalPages := numPages,
      showConfig := true, status := AppStatus.IDLE }
  | none => { st1 with status := AppStatus.ERROR }

/-- The `handleReset` handler of `App.tsx` (the "New" button). -/
def handleReset (st : AppState) : AppState :=
  { st with
    currentFile := none, pdfDoc := none, extractedPages := [],
    editorText := "", analysis := none, status := AppStatus.IDLE }

/-- One member of the exported zip archive, as handed to the archive
collaborator: `zip.file(name, data, base64 flag)` in
`handleDownloadImages`.  `data` is `page.imageUrl.split(',')[1]`, which is
absent when the stored URL has no comma. -/
structure ZipEntry where
  name : String
  data : Option String
  base64 : Bool
  deriving DecidableEq

/-- The `handleDownloadImages` handler of `App.tsx`, up to the archive
collaborator boundary: the sequence of members added to the zip, one
`zip.file` call per extracted page in order. -/
def handleDownloadImages (extractedPages : List ExtractedPage) : List ZipEntry :=
  extractedPages.foldl
    (fun zip page =>
      zip ++ [{ name := "page_" ++ toString page.pageNumber ++ ".jpg",
                data := (page.imageUrl.splitOn ",")[1]?,
                base64 := true }]) []

/-- Whether both collaborator steps (render, then OCR of the rendered
image) succeed for page `n`. -/
def succeeds (render : Int → Option String) (ocr : String → Option String) (n : Int) : Bool :=
  match render n with
  | none => false
  | some img => (ocr img).isSome

/-- The text the OCR collaborator returns for page `n` (meaningful when
`succeeds` holds). -/
def recognizedText (render : Int → Option String) (ocr : String → Option String)
    (n : Int) : String :=
  ((render n).bind ocr).getD ""

/-- The rendered image of page `n` (meaningful when rendering succeeds). -/
def renderedImage (render : Int → Option String) (n : Int) : String :=
  (render n).getD ""

/-- The extracted-page record produced for page `n`, or `none` when either
collaborator step fails. -/
def pageRecord (render : Int → Option String) (ocr : String → Option String)
    (n : Int) : Option ExtractedPage :=
  match render n with
  | none => none
  | some img =>
    match ocr img with
    | none => none
    | some text => some ⟨n, text, img⟩

/-- The state of `startProcessing` just before the page loop runs: panel
hidden, status PROCESSING, pages and text cleared, counters `(0, total)`. -/
def preLoopState (config : ProcessingConfig) (st : AppState) : AppState :=
  { st with
    showConfig := false, status := AppStatus.PROCESSING,
    extractedPages := [], editorText := "",
    processingProgress := ⟨0, (pagesToProcess config st.totalPages).length⟩ }

/-- The state of a processing run after the first `j` pages of the visited
sequence have been attempted. -/
def stateAfter (render : Int → Option String) (ocr : String → Option String)
    (config : ProcessingConfig) (st : AppState) (j : Nat) : AppState :=
  processLoop render ocr (pagesToProcess config st.totalPages).length
    ((pagesToProcess config st.totalPages).take j) 0 (preLoopState config st)

/-! Concrete configurations, collaborators and states used to exercise the
theorems on closed inputs. -/

/-- A SINGLE-mode configuration for page 1. -/
def cfgSingle1 : ProcessingConfig := ⟨ProcessingMode.SINGLE, 1, 0, 0⟩

/-- A SINGLE-mode configuration for page 5. -/
def cfgSingle5 : ProcessingConfig := ⟨ProcessingMode.SINGLE, 5, 0, 0⟩

/-- A RANGE-mode configuration for pages 2..4. -/
def cfgRange24 : ProcessingConfig := ⟨ProcessingMode.RANGE, 0, 2, 4⟩

/-- A malformed RANGE-mode configuration (start 4 above end 2). -/
def cfgRange42 : ProcessingConfig := ⟨ProcessingMode.RANGE, 0, 4, 2⟩

/-- A RANGE-mode configuration for pages 1..2. -/
def cfgRange12 : ProcessingConfig := ⟨ProcessingMode.RANGE, 0, 1, 2⟩

/-- A renderer that succeeds only on page 1. -/
def renderOnly1 : Int → Option String := fun n => if n = 1 then some "img1" else none

/-- An OCR client whose recognized text happens to spell a page marker. -/
def ocrMarker2 : String → Option String := fun _ => some "--- Page 2 ---"

/-- A renderer that succeeds on every page. -/
def renderOK : Int → Option String := fun n => some ("img" ++ toString n)

/-- An OCR client that succeeds on every image. -/
def ocrOK : String → Option String := fun s => some ("text:" ++ s)

/-- A renderer that fails on every page. -/
def renderNone : Int → Option String := fun _ => none

/-- A session state whose editor text is whitespace only. -/
def stWhite : AppState := { initialState with editorText := " \n\t " }

/-- A COMPLETED session state with one extracted page, nonempty editor
text, a stored analysis and progress counters at `(2, 2)`. -/
def stC7 : AppState :=
  { initialState with
    status := AppStatus.COMPLETED,
    extractedPages := [⟨1, "t", "data:image/jpeg;base64,AAAA"⟩],
    editorText := "x",
    analysis := some ⟨"sum", ["k"], ["t"], ["p"]⟩,
    processingProgress := ⟨2, 2⟩ }

/-- A session state carrying data from a previous run, used to observe
what a new file selection leaves in place. -/
def stC9 : AppState :=
  { initialState with
    extractedPages := [⟨1, "t", "data:image/jpeg;base64,AAAA"⟩],
    editorText := "old text",
    analysis := some ⟨"sum", ["k"], ["t"], ["p"]⟩ }

/-! Helper lemmas. -/

/-- Joining a list of strings peels off its head. -/
theorem join_cons (a : String) (l : List String) :
    String.join (a :: l) = a ++ String.join l := by
  apply String.ext
  simp [String.join_eq]

/-- Membership in `intRange` is exactly the interval bounds. -/
theorem mem_intRange {a b n : Int} : n ∈ intRange a b ↔ a ≤ n ∧ n ≤ b := by
  unfold intRange
  simp only [List.mem_map, List.mem_range]
  constructor
  · rintro ⟨k, hk, rfl⟩
    constructor <;> omega
  · rintro ⟨h1, h2⟩
    refine ⟨(n - a).toNat, by omega, by omega⟩

/-- The integer range list is strictly ascending. -/
theorem sorted_intRange (a b : Int) : (intRange a b).Sorted (· < ·) := by
  unfold intRange
  exact List.Pairwise.map _ (fun x y (h : x < y) => by omega) (List.pairwise_lt_range _)

/-- A backwards range is empty. -/
theorem intRange_eq_nil {a b : Int} (h : b < a) : intRange a b = [] := by
  unfold intRange
  have : (b + 1 - a).toNat = 0 := by omega
  rw [this]
  rfl

/-- The visited page sequence is strictly ascending in every mode. -/
theorem sorted_pagesToProcess (config : ProcessingConfig) (totalPages : Int) :
    (pagesToProcess config totalPages).Sorted (· < ·) := by
  unfold pagesToProcess
  cases config.mode with
  | SINGLE => exact List.sorted_singleton _
  | RANGE => exact sorted_intRange _ _
  | ALL => exact sorted_intRange _ _

/-- When a collaborator step fails for page `n`, no record is produced. -/
theorem pageRecord_eq_none {render : Int → Option String} {ocr : String → Option String}
    {n : Int} (h : succeeds render ocr n = false) : pageRecord render ocr n = none := by
  cases hr : render n with
  | none => simp [pageRecord, hr]
  | some img =>
    cases ho : ocr img with
    | none => simp [pageRecord, hr, ho]
    | some text => simp [succeeds, hr, ho] at h

/-- When both collaborator steps succeed for page `n`, the produced record
holds the page number, the recognized text and the rendered image. -/
theorem pageRecord_eq_some {render : Int → Option String} {ocr : String → Option String}
    {n : Int} (h : succeeds render ocr n = true) :
    pageRecord render ocr n = some ⟨n, recognizedText render ocr n, renderedImage render n⟩ := by
  cases hr : render n with
  | none => simp [succeeds, hr] at h
  | some img =>
    cases ho : ocr img with
    | none => simp [succeeds, hr, ho] at h
    | some text => simp [pageRecord, recognizedText, renderedImage, hr, ho]

/-- A failed page leaves the loop state untouched. -/
theorem processOnePage_of_fail {render : Int → Option String} {ocr : String → Option String}
    {p : Int} (total : Nat) (st : AppState) (i : Nat)
    (h : succeeds render ocr p = false) : processOnePage render ocr total st i p = st := by
  cases hr : render p with
  | none => simp [processOnePage, hr]
  | some img =>
    cases ho : ocr img with
    | none => simp [processOnePage, hr, ho]
    | some text => simp [succeeds, hr, ho] at h

/-- A successful page appends its record and editor block and advances the
progress counters to `(i + 1, total)`. -/
theorem processOnePage_of_succ {render : Int → Option String} {ocr : String → Option String}
    {p : Int} (total : Nat) (st : AppState) (i : Nat)
    (h : succeeds render ocr p = true) :
    processOnePage render ocr total st i p =
      { st with
        extractedPages :=
          st.extractedPages ++ [⟨p, recognizedText render ocr p, renderedImage render p⟩],
        editorText := st.editorText ++ pageBlock p (recognizedText render ocr p),
        processingProgress := ⟨i + 1, total⟩ } := by
  cases hr : render p with
  | none => simp [succeeds, hr] at h
  | some img =>
    cases ho : ocr img with
    | none => simp [succeeds, hr, ho] at h
    | some text => simp [processOnePage, recognizedText, renderedImage, hr, ho]

/-- The loop appends exactly the records of the pages whose render and OCR
both succeed, in visit order. -/
theorem processLoop_extractedPages (render : Int → Option String) (ocr : String → Option String)
    (total : Nat) (pages : List Int) (i : Nat) (st : AppState) :
    (processLoop render ocr total pages i st).extractedPages
      = st.extractedPages ++ pages.filterMap (pageRecord render ocr) := by
  induction pages generalizing i st with
  | nil => simp [processLoop]
  | cons p rest ih =>
    simp only [processLoop]
    rw [ih]
    cases h : succeeds render ocr p with
    | false =>
      rw [processOnePage_of_fail _ _ _ h, List.filterMap_cons, pageRecord_eq_none h]
    | true =>
      rw [processOnePage_of_succ _ _ _ h, List.filterMap_cons, pageRecord_eq_some h]
      simp

/-- The loop appends to the editor text exactly the blocks of the pages
whose render and OCR both succeed, in visit order. -/
theorem processLoop_editorText (render : Int → Option String) (ocr : String → Option String)
    (total : Nat) (pages : List Int) (i : Nat) (st : AppState) :
    (processLoop render ocr total pages i st).editorText
      = st.editorText ++ String.join ((pages.filter (fun n => succeeds render ocr n)).map
          (fun n => pageBlock n (recognizedText render ocr n))) := by
  induction pages generalizing i st with
  | nil => simp [processLoop, String.join]
  | cons p rest ih =>
    simp only [processLoop]
    rw [ih]
    cases h : succeeds render ocr p with
    | false =>
      rw [processOnePage_of_fail _ _ _ h]
      simp [List.filter_cons, h]
    | true =>
      rw [processOnePage_of_succ _ _ _ h]
      simp only [List.filter_cons, h, if_pos, List.map_cons, join_cons]
      rw [String.append_assoc]

/-- The loop never changes the status field. -/
theorem processLoop_status (render : Int → Option String) (ocr : String → Option String)
    (total : Nat) (pages : List Int) (i : Nat) (st : AppState) :
    (processLoop render ocr total pages i st).status = st.status := by
  induction pages generalizing i st with
  | nil => rfl
  | cons p rest ih =>
    simp only [processLoop]
    rw [ih]
    cases h : succeeds render ocr p with
    | false => rw [processOnePage_of_fail _ _ _ h]
    | true => rw [processOnePage_of_succ _ _ _ h]

/-- The loop never changes the stored analysis result. -/
theorem processLoop_analysis (render : Int → Option String) (ocr : String → Option String)
    (total : Nat) (pages : List Int) (i : Nat) (st : AppState) :
    (processLoop render ocr total pages i st).analysis = st.analysis := by
  induction pages generalizing i st with
  | nil => rfl
  | cons p rest ih =>
    simp only [processLoop]
    rw [ih]
    cases h : succeeds render ocr p with
    | false => rw [processOnePage_of_fail _ _ _ h]
    | true => rw [processOnePage_of_succ _ _ _ h]

/-- Splitting the loop over an appended page list. -/
theorem processLoop_append (render : Int → Option String) (ocr : String → Option String)
    (total : Nat) (xs ys : List Int) (i : Nat) (st : AppState) :
    processLoop render ocr total (xs ++ ys) i st
      = processLoop render ocr total ys (i + xs.length)
          (processLoop render ocr total xs i st) := by
  induction xs generalizing i st with
  | nil => simp [processLoop]
  | cons x rest ih =>
    simp only [List.cons_append, processLoop, List.append_eq, List.length_cons]
    rw [ih]
    congr 1
    omega

/-- Unfolding `startProcessing` to the page loop over the pre-loop state. -/
theorem startProcessing_eq (render : Int → Option String) (ocr : String → Option String)
    (config : ProcessingConfig) (st : AppState) :
    startProcessing render ocr config st =
      { processLoop render ocr (pagesToProcess config st.totalPages).length
          (pagesToProcess config st.totalPages) 0 (preLoopState config st) with
        status := AppStatus.COMPLETED } := rfl

/-- A processing run ends in the COMPLETED status. -/
theorem startProcessing_status (render : Int → Option String) (ocr : String → Option String)
    (config : ProcessingConfig) (st : AppState) :
    (startProcessing render ocr config st).status = AppStatus.COMPLETED := rfl

/-- The extracted pages of a run are the records of the successful visited
pages, in visit order, independent of the pages held before the run. -/
theorem startProcessing_extractedPages (render : Int → Option String)
    (ocr : String → Option String) (config : ProcessingConfig) (st : AppState) :
    (startProcessing render ocr config st).extractedPages
      = (pagesToProcess config st.totalPages).filterMap (pageRecord render ocr) := by
  rw [startProcessing_eq]
  dsimp only
  rw [processLoop_extractedPages]
  simp [preLoopState]

/-- The editor text of a run is the join of the blocks of the successful
visited pages, in visit order, independent of the text held before. -/
theorem startProcessing_editorText (render : Int → Option String)
    (ocr : String → Option String) (config : ProcessingConfig) (st : AppState) :
    (startProcessing render ocr config st).editorText
      = String.join (((pagesToProcess config st.totalPages).filter
          (fun n => succeeds render ocr n)).map
          (fun n => pageBlock n (recognizedText render ocr n))) := by
  rw [startProcessing_eq]
  dsimp only
  rw [processLoop_editorText]
  simp [preLoopState]

/-- A processing run leaves the stored analysis result unchanged. -/
theorem startProcessing_analysis (render : Int → Option String)
    (ocr : String → Option String) (config : ProcessingConfig) (st : AppState) :
    (startProcessing render ocr config st).analysis = st.analysis := by
  rw [startProcessing_eq]
  dsimp only
  rw [processLoop_analysis]
  simp [preLoopState]

/-- Successful pages of the visited sequence stay in ascending order after
filtering. -/
theorem sorted_filter_succeeds (render : Int → Option String) (ocr : String → Option String)
    (config : ProcessingConfig) (totalPages : Int) :
    ((pagesToProcess config totalPages).filter
      (fun n => succeeds render ocr n)).Sorted (· < ·) :=
  List.Pairwise.sublist (List.filter_sublist _) (sorted_pagesToProcess config totalPages)

/-- A produced record carries the number of a page whose steps succeeded. -/
theorem pageRecord_pageNumber {render : Int → Option String} {ocr : String → Option String}
    {n : Int} {p : ExtractedPage} (h : pageRecord render ocr n = some p) :
    p.pageNumber = n ∧ succeeds render ocr n = true := by
  cases hs : succeeds render ocr n with
  | false => rw [pageRecord_eq_none hs] at h; exact absurd h (by simp)
  | true =>
    rw [pageRecord_eq_some hs] at h
    simp only [Option.some.injEq] at h
    subst h
    exact ⟨rfl, rfl⟩

/-- Auxiliary: a left fold that appends one element per input equals the
accumulator followed by the mapped list. -/
theorem foldl_append_singleton {α β : Type} (f : α → β) (l : List α) :
    ∀ acc : List β, l.foldl (fun r x => r ++ [f x]) acc = acc ++ l.map f := by
  induction l with
  | nil => intro acc; simp
  | cons x xs ih => intro acc; simp [ih]

/-- The zip-member list is the extracted-page list mapped through the
naming and data-extraction of `handleDownloadImages`. -/
theorem handleDownloadImages_eq_map (pages : List ExtractedPage) :
    handleDownloadImages pages = pages.map (fun page =>
      { name := "page_" ++ toString page.pageNumber ++ ".jpg",
        data := (page.imageUrl.splitOn ",")[1]?,
        base64 := true }) := by
  unfold handleDownloadImages
  have h := foldl_append_singleton (fun page : ExtractedPage =>
    ({ name := "page_" ++ toString page.pageNumber ++ ".jpg",
       data := (page.imageUrl.splitOn ",")[1]?,
       base64 := true } : ZipEntry)) pages []
  simpa using h

/-- The loop keeps the progress total at `tot` once it is `tot`. -/
theorem processLoop_total {render : Int → Option String} {ocr : String → Option String}
    {tot : Nat} {pages : List Int} {i : Nat} {st : AppState}
    (h : st.processingProgress.total = tot) :
    (processLoop render ocr tot pages i st).processingProgress.total = tot := by
  induction pages generalizing i st with
  | nil => exact h
  | cons p rest ih =>
    simp only [processLoop]
    apply ih
    cases hs : succeeds render ocr p with
    | false => rw [processOnePage_of_fail _ _ _ hs]; exact h
    | true => rw [processOnePage_of_succ _ _ _ hs]

/-! Claims. -/

/-- C1: the visited page-number sequence is exactly determined by the
configuration: it is always ascending; ALL mode visits exactly the pages
`1..totalPages`, SINGLE mode visits exactly the configured page, RANGE
mode visits exactly `rangeStart..rangeEnd`, and a backwards range gives
the empty sequence. -/
theorem claim_C1 (config : ProcessingConfig) (totalPages : Int) :
    (pagesToProcess config totalPages).Sorted (· < ·) ∧
    (config.mode = ProcessingMode.ALL →
      ∀ n : Int, n ∈ pagesToProcess config totalPages ↔ 1 ≤ n ∧ n ≤ totalPages) ∧
    (config.mode = ProcessingMode.SINGLE →
      pagesToProcess config totalPages = [config.singlePage]) ∧
    (config.mode = ProcessingMode.RANGE →
      ∀ n : Int, n ∈ pagesToProcess config totalPages ↔
        config.rangeStart ≤ n ∧ n ≤ config.rangeEnd) ∧
    (config.mode = ProcessingMode.RANGE → config.rangeEnd < config.rangeStart →
      pagesToProcess config totalPages = []) := by
  refine ⟨sorted_pagesToProcess config totalPages, ?_, ?_, ?_, ?_⟩
  · intro h n
    simp only [pagesToProcess, h]
    exact mem_intRange
  · intro h
    simp only [pagesToProcess, h]
  · intro h n
    simp only [pagesToProcess, h]
    exact mem_intRange
  · intro h hlt
    simp only [pagesToProcess, h]
    exact intRange_eq_nil hlt

/-- C1 witness: concrete SINGLE, RANGE and backwards-RANGE sequences. -/
theorem claim_C1_witness :
    (pagesToProcess cfgSingle5 9 = [5]) ∧
    (3 ∈ pagesToProcess cfgRange24 9 ↔ cfgRange24.rangeStart ≤ 3 ∧ 3 ≤ cfgRange24.rangeEnd) ∧
    (pagesToProcess cfgRange42 9 = []) :=
  ⟨(claim_C1 cfgSingle5 9).2.2.1 rfl,
   (claim_C1 cfgRange24 9).2.2.2.1 rfl 3,
   (claim_C1 cfgRange42 9).2.2.2.2 rfl (by decide)⟩

/-- C3: on a completed run the accumulated editor text equals the
concatenation, in ascending page order, of the block
`\n\n--- Page n ---\n\ntext` for exactly those visited pages whose render
and OCR both succeeded. -/
theorem claim_C3 (render : Int → Option String) (ocr : String → Option String)
    (config : ProcessingConfig) (st : AppState) :
    (startProcessing render ocr config st).editorText
      = String.join (((pagesToProcess config st.totalPages).filter
          (fun n => succeeds render ocr n)).map
          (fun n => pageBlock n (recognizedText render ocr n))) ∧
    ((pagesToProcess config st.totalPages).filter
      (fun n => succeeds render ocr n)).Sorted (· < ·) :=
  ⟨startProcessing_editorText render ocr config st,
   sorted_filter_succeeds render ocr config st.totalPages⟩

/-- C4: every run ends with status COMPLETED, whatever the collaborators
do; and an empty visited sequence completes with no extracted pages, empty
text and progress `(0, 0)`. -/
theorem claim_C4 (render : Int → Option String) (ocr : String → Option String)
    (config : ProcessingConfig) (st : AppState) :
    (startProcessing render ocr config st).status = AppStatus.COMPLETED ∧
    (pagesToProcess config st.totalPages = [] →
      (startProcessing render ocr config st).extractedPages = [] ∧
      (startProcessing render ocr config st).editorText = "" ∧
      (startProcessing render ocr config st).processingProgress = ⟨0, 0⟩) := by
  refine ⟨startProcessing_status render ocr config st, fun h => ⟨?_, ?_, ?_⟩⟩
  · rw [startProcessing_extractedPages, h]
    rfl
  · rw [startProcessing_editorText, h]
    rfl
  · rw [startProcessing_eq]
    dsimp only
    rw [h]
    simp [processLoop, preLoopState, h]

/-- C4 witness: a backwards range completes with nothing extracted. -/
theorem claim_C4_witness :
    (startProcessing renderOK ocrOK cfgRange42 initialState).extractedPages = [] ∧
    (startProcessing renderOK ocrOK cfgRange42 initialState).editorText = "" ∧
    (startProcessing renderOK ocrOK cfgRange42 initialState).processingProgress = ⟨0, 0⟩ :=
  (claim_C4 renderOK ocrOK cfgRange42 initialState).2 (by decide)

/-- C5: when the editor text trims to empty, invoking analysis is a
no-op: the state is unchanged and zero calls reach the analysis client. -/
theorem claim_C5 (analyze : String → Option AnalysisResult) (st : AppState)
    (h : trimJS st.editorText = "") :
    handleAnalyze analyze st = (st, 0) := by
  simp [handleAnalyze, h]

/-- C5 witness: whitespace-only editor text is left alone. -/
theorem claim_C5_witness : handleAnalyze (fun _ => none) stWhite = (stWhite, 0) :=
  claim_C5 (fun _ => none) stWhite (by decide)

/-- C6: the exported archive receives exactly one member per extracted
page, in order, named `page_{pageNumber}.jpg`, whose bytes are the part of
the stored data URL after its comma, flagged for base64 decoding. -/
theorem claim_C6 (pages : List ExtractedPage) :
    (handleDownloadImages pages).length = pages.length ∧
    ∀ i : Nat, (handleDownloadImages pages)[i]? = (pages[i]?).map (fun page =>
      { name := "page_" ++ toString page.pageNumber ++ ".jpg",
        data := (page.imageUrl.splitOn ",")[1]?,
        base64 := true }) := by
  rw [handleDownloadImages_eq_map]
  constructor
  · simp
  · intro i
    simp [List.getElem?_map]

/-- C7 counterexample: resetting from COMPLETED leaves the progress
counters at their pre-reset value `(2, 2)` instead of restoring the
initial `(0, 0)`. -/
theorem claim_C7_counterexample :
    stC7.status = AppStatus.COMPLETED ∧
    (handleReset stC7).processingProgress ≠ initialState.processingProgress := by
  decide

/-- C7 amended: reset clears the extracted pages, editor text, analysis
result, selected file and document handle and returns the status to IDLE,
but leaves the progress counters unchanged rather than restoring their
initial values. -/
theorem claim_C7_amended (st : AppState) :
    (handleReset st).extractedPages = [] ∧
    (handleReset st).editorText = "" ∧
    (handleReset st).analysis = none ∧
    (handleReset st).status = AppStatus.IDLE ∧
    (handleReset st).currentFile = none ∧
    (handleReset st).pdfDoc = none ∧
    (handleReset st).processingProgress = st.processingProgress :=
  ⟨rfl, rfl, rfl, rfl, rfl, rfl, rfl⟩

/-- C9 counterexample: selecting a new file over a session holding pages,
text and an analysis leaves all three in place. -/
theorem claim_C9_counterexample :
    (handleFileSelect (fun _ => some 3) "b.pdf" stC9).extractedPages ≠ [] ∧
    (handleFileSelect (fun _ => some 3) "b.pdf" stC9).editorText ≠ "" ∧
    (handleFileSelect (fun _ => some 3) "b.pdf" stC9).analysis ≠ none := by
  decide

/-- C9 amended: new file selection does not reset the session data: the
extracted-page sequence, the accumulated editor text and the analysis
result are all unchanged at the moment a file is selected, whether the
load succeeds or fails. -/
theorem claim_C9_amended (getDoc : String → Option Int) (file : String) (st : AppState) :
    (handleFileSelect getDoc file st).extractedPages = st.extractedPages ∧
    (handleFileSelect getDoc file st).editorText = st.editorText ∧
    (handleFileSelect getDoc file st).analysis = st.analysis := by
  unfold handleFileSelect
  cases getDoc file <;> exact ⟨rfl, rfl, rfl⟩

/-- C10: starting a run computes the extracted pages and editor text from
scratch (the previously held pages and text do not influence the result)
while leaving a previously stored analysis result unchanged. -/
theorem claim_C10 (render : Int → Option String) (ocr : String → Option String)
    (config : ProcessingConfig) (st : AppState) (P : List ExtractedPage) (T : String) :
    (startProcessing render ocr config st).analysis = st.analysis ∧
    (startProcessing render ocr config
        { st with extractedPages := P, editorText := T }).extractedPages
      = (startProcessing render ocr config st).extractedPages ∧
    (startProcessing render ocr config
        { st with extractedPages := P, editorText := T }).editorText
      = (startProcessing render ocr config st).editorText := by
  refine ⟨startProcessing_analysis render ocr config st, ?_, ?_⟩
  · rw [startProcessing_extractedPages, startProcessing_extractedPages]
  · rw [startProcessing_editorText, startProcessing_editorText]

/-- C2 counterexample: page 2 of the run fails, yet the accumulated
editor text contains the substring `--- Page 2 ---`, because the OCR text
recognized for page 1 happens to spell that marker. -/
theorem claim_C2_counterexample :
    2 ∈ pagesToProcess cfgRange12 initialState.totalPages ∧
    succeeds renderOnly1 ocrMarker2 2 = false ∧
    ("--- Page 2 ---").data <:+:
      (startProcessing renderOnly1 ocrMarker2 cfgRange12 initialState).editorText.data := by
  decide

/-- C2 amended: when rendering or OCR fails for a visited page `k`, no
extracted-page record for `k` is appended and no page-`k` block is
appended to the editor text (the text is exactly the concatenation of the
blocks of the successful pages, among which `k` does not occur, though a
marker string may still appear inside another page's recognized text);
every other successful page still yields a record, and the run still
completes. -/
theorem claim_C2_amended (render : Int → Option String) (ocr : String → Option String)
    (config : ProcessingConfig) (st : AppState) (k : Int)
    (_hk : k ∈ pagesToProcess config st.totalPages)
    (hfail : succeeds render ocr k = false) :
    (∀ p ∈ (startProcessing render ocr config st).extractedPages, p.pageNumber ≠ k) ∧
    k ∉ (pagesToProcess config st.totalPages).filter (fun n => succeeds render ocr n) ∧
    (startProcessing render ocr config st).editorText
      = String.join (((pagesToProcess config st.totalPages).filter
          (fun n => succeeds render ocr n)).map
          (fun n => pageBlock n (recognizedText render ocr n))) ∧
    (∀ j ∈ pagesToProcess config st.totalPages, succeeds render ocr j = true →
      ∃ p ∈ (startProcessing render ocr config st).extractedPages, p.pageNumber = j) ∧
    (startProcessing render ocr config st).status = AppStatus.COMPLETED := by
  refine ⟨?_, ?_, startProcessing_editorText render ocr config st, ?_,
    startProcessing_status render ocr config st⟩
  · intro p hp hcontra
    rw [startProcessing_extractedPages, List.mem_filterMap] at hp
    obtain ⟨n, hn, hrec⟩ := hp
    obtain ⟨hpn, hsucc⟩ := pageRecord_pageNumber hrec
    rw [hcontra] at hpn
    rw [← hpn] at hsucc
    rw [hfail] at hsucc
    exact Bool.false_ne_true hsucc
  · intro hmem
    rw [List.mem_filter] at hmem
    rw [hfail] at hmem
    exact Bool.false_ne_true hmem.2
  · intro j hj hsucc
    rw [startProcessing_extractedPages]
    refine ⟨⟨j, recognizedText render ocr j, renderedImage render j⟩, ?_, rfl⟩
    rw [List.mem_filterMap]
    exact ⟨j, hj, pageRecord_eq_some hsucc⟩

/-- C2 witness: in the concrete failing run, no record for page 2 exists
and the run completes. -/
theorem claim_C2_witness :
    (∀ p ∈ (startProcessing renderOnly1 ocrMarker2 cfgRange12 initialState).extractedPages,
      p.pageNumber ≠ 2) ∧
    (startProcessing renderOnly1 ocrMarker2 cfgRange12 initialState).status
      = AppStatus.COMPLETED :=
  ⟨(claim_C2_amended renderOnly1 ocrMarker2 cfgRange12 initialState 2
      (by decide) (by decide)).1,
   (claim_C2_amended renderOnly1 ocrMarker2 cfgRange12 initialState 2
      (by decide) (by decide)).2.2.2.2⟩

/-- C8 counterexample: with a single visited page whose render fails, the
counters after the attempt remain `(0, 1)`, not `(1, 1)` as the claim
requires for index 0. -/
theorem claim_C8_counterexample :
    (pagesToProcess cfgSingle1 initialState.totalPages).length = 1 ∧
    (startProcessing renderNone ocrOK cfgSingle1 initialState).processingProgress
      ≠ ⟨1, 1⟩ := by
  decide

/-- C8 amended: after the page at index `i` of the visited sequence is
attempted, the progress total equals the sequence length, and the current
counter equals `i + 1` when that page succeeded; when it failed the
counters are unchanged from before the attempt. -/
theorem claim_C8_amended (render : Int → Option String) (ocr : String → Option String)
    (config : ProcessingConfig) (st : AppState) (i : Nat)
    (hi : i < (pagesToProcess config st.totalPages).length) :
    (succeeds render ocr (pagesToProcess config st.totalPages)[i] = true →
      (stateAfter render ocr config st (i + 1)).processingProgress
        = ⟨i + 1, (pagesToProcess config st.totalPages).length⟩) ∧
    (succeeds render ocr (pagesToProcess config st.totalPages)[i] = false →
      (stateAfter render ocr config st (i + 1)).processingProgress
        = (stateAfter render ocr config st i).processingProgress) ∧
    (stateAfter render ocr config st (i + 1)).processingProgress.total
      = (pagesToProcess config st.totalPages).length := by
  have hsplit : stateAfter render ocr config st (i + 1)
      = processOnePage render ocr (pagesToProcess config st.totalPages).length
          (stateAfter render ocr config st i) i
          (pagesToProcess config st.totalPages)[i] := by
    unfold stateAfter
    rw [List.take_succ, List.getElem?_eq_getElem hi, Option.toList_some, processLoop_append]
    simp [processLoop, List.length_take, Nat.min_eq_left (le_of_lt hi)]
  refine ⟨?_, ?_, ?_⟩
  · intro hs
    rw [hsplit, processOnePage_of_succ _ _ _ hs]
  · intro hs
    rw [hsplit, processOnePage_of_fail _ _ _ hs]
  · unfold stateAfter
    exact processLoop_total rfl

/-- C8 witness: in a concrete run whose single page succeeds, the counters
after the attempt are `(1, 1)`. -/
theorem claim_C8_witness :
    (stateAfter renderOK ocrOK cfgSingle1 initialState 1).processingProgress = ⟨1, 1⟩ :=
  (claim_C8_amended renderOK ocrOK cfgSingle1 initialState 0 (by decide)).1 (by decide)

end ScanGenius
